import Mathlib

/-!
Verification of the chrome-launcher core (launch/ready/kill lifecycle,
port-readiness polling, flag building, preference merging, registry).

Shallow embedding of src/chrome-launcher.ts (src/unnamed/part_000) and
src/flags.js.  External collaborators (chrome-finder, random-port, the
filesystem, the OS process table, TCP probing) are modelled as explicit
oracle parameters; the functions below are otherwise direct translations
of the source.
-/

set_option autoImplicit false

namespace ChromeLauncher

/-! ## Readiness polling (`Launcher.waitUntilReady`, part_000 lines 413-452)

`ready n` is the outcome of the `n`-th `isDebuggerReady()` probe (the
source's `retries` counter equals the index of the attempt in flight).
`PollStats` records how many probes ran, how many inter-probe delays were
scheduled, the total milliseconds of scheduled delay, and whether the
promise resolved (`ok = true`) or rejected. -/

structure PollStats where
  attempts : Nat
  delays : Nat
  delayMs : Nat
  ok : Bool
deriving DecidableEq, Repr

/-- One run of the source's `poll` closure starting from counter value
`retries`: increment the counter, probe; on success resolve; on failure
reject when `retries > maxConnectionRetries`, otherwise schedule the next
poll after `connectionPollInterval` milliseconds. -/
def pollLoop (ready : Nat → Bool) (connectionPollInterval maxConnectionRetries : Nat)
    (retries : Nat) : PollStats :=
  if ready (retries + 1) then
    { attempts := 1, delays := 0, delayMs := 0, ok := true }
  else if h : maxConnectionRetries < retries + 1 then
    { attempts := 1, delays := 0, delayMs := 0, ok := false }
  else
    let rest := pollLoop ready connectionPollInterval maxConnectionRetries (retries + 1)
    { attempts := rest.attempts + 1, delays := rest.delays + 1,
      delayMs := rest.delayMs + connectionPollInterval, ok := rest.ok }
termination_by maxConnectionRetries + 1 - retries
decreasing_by simp_wf; omega

/-- `waitUntilReady()`: start the polling loop with `retries = 0`. -/
def waitUntilReady (ready : Nat → Bool) (connectionPollInterval maxConnectionRetries : Nat) :
    PollStats :=
  pollLoop ready connectionPollInterval maxConnectionRetries 0

theorem pollLoop_never (ready : Nat → Bool) (interval max : Nat)
    (h : ∀ n, ready n = false) :
    ∀ d retries, max - retries = d → retries ≤ max →
      pollLoop ready interval max retries =
        { attempts := max + 1 - retries, delays := max - retries,
          delayMs := (max - retries) * interval, ok := false } := by
  intro d
  induction d with
  | zero =>
    intro retries hd hr
    have heq : retries = max := by omega
    subst heq
    rw [pollLoop]
    simp [h]
  | succ k ih =>
    intro retries hd hr
    have hlt : retries + 1 ≤ max := by omega
    rw [pollLoop]
    simp only [h, Bool.false_eq_true, if_false]
    rw [dif_neg (by omega)]
    rw [ih (retries + 1) (by omega) hlt]
    have h1 : max + 1 - retries = (max + 1 - (retries + 1)) + 1 := by omega
    have h2 : max - retries = (max - (retries + 1)) + 1 := by omega
    simp only [h1, h2, PollStats.mk.injEq]
    refine ⟨trivial, trivial, ?_, trivial⟩
    ring

/-- C1 (counterexample): with the default configuration
(`maxConnectionRetries = 50`, `connectionPollInterval = 500`) and a probe
that never succeeds, `waitUntilReady` does NOT reject after exactly 50
probe attempts: it performs 51. -/
theorem waitUntilReady_attempts_ne_max :
    ¬ ((waitUntilReady (fun _ => false) 500 50).attempts = 50) := by
  have h := pollLoop_never (fun _ => false) 500 50 (fun _ => rfl) 50 0 rfl (by omega)
  unfold waitUntilReady
  rw [h]
  decide

/-- C1 (amended): if no readiness probe ever succeeds, `waitUntilReady`
rejects only after exactly `maxConnectionRetries + 1` probe attempts
(51 with the default of 50), each failed non-final attempt followed by a
delay of `connectionPollInterval` milliseconds before the next probe
(`maxConnectionRetries` delays in total). -/
theorem waitUntilReady_never_succeeds (ready : Nat → Bool) (interval max : Nat)
    (h : ∀ n, ready n = false) :
    waitUntilReady ready interval max =
      { attempts := max + 1, delays := max, delayMs := max * interval, ok := false } := by
  unfold waitUntilReady
  have := pollLoop_never ready interval max h max 0 rfl (by omega)
  simpa using this

/-- C1 witness: the amended theorem at the default configuration. -/
theorem waitUntilReady_never_succeeds_witness :
    waitUntilReady (fun _ => false) 500 50 =
      { attempts := 51, delays := 50, delayMs := 25000, ok := false } :=
  waitUntilReady_never_succeeds (fun _ => false) 500 50 (fun _ => rfl)

/-! ## JSON values and the preference overlay (`Launcher.setBrowserPrefs`,
part_000 lines 262-295)

The source's `JSONLike` type; objects are association lists in source
(insertion) order, matching JavaScript object key order. -/

inductive JSONLike where
  | str : String → JSONLike
  | num : Int → JSONLike
  | bool : Bool → JSONLike
  | null : JSONLike
  | arr : List JSONLike → JSONLike
  | obj : List (String × JSONLike) → JSONLike

/-- JavaScript property assignment on an object literal: updating an
existing key keeps its position, a new key is appended at the end. -/
def setKey {α : Type} : List (String × α) → String → α → List (String × α)
  | [], k, v => [(k, v)]
  | (k', v') :: rest, k, v =>
      if k' = k then (k', v) :: rest else (k', v') :: setKey rest k v

/-- JavaScript property read on an object literal (first binding wins;
bindings built through `setKey` are duplicate-free). -/
def lookupKey {α : Type} : List (String × α) → String → Option α
  | [], _ => none
  | (k', v) :: rest, k => if k = k' then some v else lookupKey rest k

/-- The object spread `{ ...a, ...b }`: start from `a` and assign each
property of `b` in order — a shallow merge in which `b`'s keys win. -/
def jsSpread (a b : List (String × JSONLike)) : List (String × JSONLike) :=
  b.foldl (fun acc kv => setKey acc kv.1 kv.2) a

/-- The filesystem as seen by `setBrowserPrefs`: a set of directories and
JSON-object files (a Preferences file always holds a JSON object; reading
composes `readFile` with `JSON.parse`, writing composes `JSON.stringify`
with `writeFile`). -/
structure Fs where
  dirs : List String := []
  files : List (String × List (String × JSONLike)) := []

def Fs.pathExists (fs : Fs) (p : String) : Bool :=
  fs.dirs.contains p || (lookupKey fs.files p).isSome

def Fs.readFile (fs : Fs) (p : String) : List (String × JSONLike) :=
  (lookupKey fs.files p).getD []

def Fs.writeFile (fs : Fs) (p : String) (content : List (String × JSONLike)) : Fs :=
  { fs with files := setKey fs.files p content }

def Fs.mkdir (fs : Fs) (p : String) : Fs :=
  { fs with dirs := p :: fs.dirs }

/-- `Launcher.setBrowserPrefs()`: skip entirely when no prefs were
configured; otherwise ensure `<userDataDir>/Default` exists and write the
shallow merge of the existing Preferences file (if any) with the overlay. -/
def setBrowserPrefs (prefs : List (String × JSONLike)) (userDataDir : String)
    (fs : Fs) : Fs :=
  if prefs.isEmpty then fs
  else
    let profileDir := userDataDir ++ "/Default"
    let fs := if fs.pathExists profileDir then fs else fs.mkdir profileDir
    let preferenceFile := profileDir ++ "/Preferences"
    if fs.pathExists preferenceFile then
      let content := fs.readFile preferenceFile
      fs.writeFile preferenceFile (jsSpread content prefs)
    else
      fs.writeFile preferenceFile (jsSpread [] prefs)

/-! ## Instance registry (`instances`, `killAll`, and the kill closure of
the module-level `launch`, part_000 lines 36, 80-107, 118-131)

Instances are identified by ids; `killOk i` is the outcome of
`await instance.kill()` for instance `i` (`false` = the promise rejected).
The JS `Set` keeps insertion order and never holds duplicates. -/

/-- `killAll()`: iterate over the registry; delete an entry only when its
kill resolved, otherwise keep it and collect the error.  Returns the
remaining registry and the ids whose kills errored, in iteration order. -/
def killAllModel (killOk : Nat → Bool) : List Nat → List Nat × List Nat
  | [] => ([], [])
  | i :: rest =>
      let r := killAllModel killOk rest
      if killOk i then r else (i :: r.1, i :: r.2)

/-- The `kill` closure returned by the module-level `launch()`:
`instances.delete(instance)` runs first, then `await instance.kill()`.
Returns the registry after the delete and the kill outcome. -/
def handleKill (killOk : Nat → Bool) (registry : List Nat) (i : Nat) :
    List Nat × Bool :=
  let registry' := registry.erase i
  (registry', killOk i)

theorem lookupKey_setKey {α : Type} (l : List (String × α)) (k k' : String) (v : α) :
    lookupKey (setKey l k v) k' = if k' = k then some v else lookupKey l k' := by
  induction l with
  | nil =>
    by_cases h : k' = k <;> simp [setKey, lookupKey, h]
  | cons kv rest ih =>
    obtain ⟨k0, v0⟩ := kv
    by_cases h0 : k0 = k
    · subst h0
      by_cases h : k' = k0 <;> simp [setKey, lookupKey, h]
    · by_cases h : k' = k0
      · subst h
        simp [setKey, h0, lookupKey, Ne.symm h0]
      · simp [setKey, h0, lookupKey, h, ih]

theorem lookupKey_eq_none_of_not_mem {α : Type} (l : List (String × α)) (k : String)
    (h : k ∉ l.map Prod.fst) : lookupKey l k = none := by
  induction l with
  | nil => rfl
  | cons kv rest ih =>
    simp only [List.map_cons, List.mem_cons] at h
    push_neg at h
    simp [lookupKey, h.1, ih h.2]

theorem lookupKey_jsSpread (a b : List (String × JSONLike)) (k : String)
    (hb : (b.map Prod.fst).Nodup) :
    lookupKey (jsSpread a b) k = (lookupKey b k).or (lookupKey a k) := by
  induction b generalizing a with
  | nil => simp [jsSpread, lookupKey]
  | cons kv rest ih =>
    obtain ⟨k0, v0⟩ := kv
    simp only [List.map_cons, List.nodup_cons] at hb
    have step : jsSpread a ((k0, v0) :: rest) = jsSpread (setKey a k0 v0) rest := rfl
    rw [step, ih (setKey a k0 v0) hb.2]
    by_cases hk : k = k0
    · subst hk
      rw [lookupKey_eq_none_of_not_mem rest k hb.1]
      simp [lookupKey, lookupKey_setKey]
    · simp [lookupKey, hk, lookupKey_setKey]

/-- C2 (counterexample): for the kill function of the handle returned by
the module-level `launch()`, the registry entry is removed before the kill
is attempted: with a registry holding instance 7 and a kill that errors,
the entry is gone even though the kill failed. -/
theorem registry_entry_removed_despite_kill_error :
    (handleKill (fun _ => false) [7] 7).2 = false ∧
      7 ∉ (handleKill (fun _ => false) [7] 7).1 := by
  constructor
  · rfl
  · decide

/-- C2 (amended): `killAll()` removes a registry entry only after a
successful kill, so instances whose kills error remain in the registry
(the survivors are exactly the erroring ones); however, the kill function
of the handle returned by the module-level `launch()` deletes the entry
from the registry before invoking kill, so there the entry is gone
regardless of the kill's outcome. -/
theorem registry_removal_spec :
    (∀ (killOk : Nat → Bool) (l : List Nat),
        (killAllModel killOk l).1 = l.filter (fun i => !(killOk i))) ∧
    (∀ (killOk : Nat → Bool) (l : List Nat) (i : Nat),
        l.Nodup → i ∉ (handleKill killOk l i).1) := by
  constructor
  · intro killOk l
    induction l with
    | nil => rfl
    | cons j rest ih =>
      by_cases h : killOk j <;> simp [killAllModel, List.filter, h, ih]
  · intro killOk l i hnd
    intro hmem
    have : i ∈ l.erase i := hmem
    rw [List.Nodup.mem_erase_iff hnd] at this
    exact this.1 rfl

/-- C2 witness: the amended theorem at concrete inputs. -/
theorem registry_removal_spec_witness :
    (killAllModel (fun i => decide (i = 2)) [1, 2, 3]).1 =
        [1, 2, 3].filter (fun i => !(decide (i = 2))) ∧
      2 ∉ (handleKill (fun _ => false) [1, 2] 2).1 :=
  ⟨registry_removal_spec.1 (fun i => decide (i = 2)) [1, 2, 3],
   registry_removal_spec.2 (fun _ => false) [1, 2] 2 (by decide)⟩

/-- The overlay of the C8 example: `{"download.default_directory":"/some/dir"}`. -/
def overlayExample : List (String × JSONLike) :=
  [("download.default_directory", JSONLike.str "/some/dir")]

/-- The pre-existing profile of the C8 example: a prepared profile
directory whose Preferences file holds `{"some":"prefs"}`. -/
def fsExample : Fs :=
  { dirs := ["/data/Default"],
    files := [("/data/Default/Preferences", [("some", JSONLike.str "prefs")])] }

/-- C8: the preference merge is shallow and caller keys win; with an
existing Preferences file holding the example object the written file
holds both keys in order; with no existing file the written file is
exactly the overlay; with an empty overlay `setBrowserPrefs` changes
nothing (no Preferences file is touched). -/
theorem setBrowserPrefs_spec :
    (∀ (dir : String) (fs : Fs), setBrowserPrefs [] dir fs = fs) ∧
    (∀ (content overlay : List (String × JSONLike)) (k : String),
        (overlay.map Prod.fst).Nodup →
        lookupKey (jsSpread content overlay) k =
          (lookupKey overlay k).or (lookupKey content k)) ∧
    ((setBrowserPrefs overlayExample "/data" fsExample).readFile "/data/Default/Preferences" =
        [("some", JSONLike.str "prefs"),
         ("download.default_directory", JSONLike.str "/some/dir")]) ∧
    ((setBrowserPrefs overlayExample "/data" {}).files =
        [("/data/Default/Preferences", overlayExample)]) := by
  refine ⟨fun dir fs => rfl, lookupKey_jsSpread, rfl, rfl⟩

/-- C8 witness: the universally quantified parts at concrete inputs. -/
theorem setBrowserPrefs_spec_witness :
    setBrowserPrefs [] "/data" fsExample = fsExample ∧
      lookupKey (jsSpread [("a", JSONLike.str "x"), ("b", JSONLike.str "y")]
          [("a", JSONLike.str "z")]) "a" = some (JSONLike.str "z") := by
  refine ⟨setBrowserPrefs_spec.1 "/data" fsExample, ?_⟩
  rw [setBrowserPrefs_spec.2.1 _ _ _ (by simp)]
  rfl

/-! ## Launcher state and construction (part_000 lines 46-73, 133-194)

External collaborators (`./utils`, `./chrome-finder`, `./random-port`,
`child_process`, TCP probing) are modelled as oracle parameters in `Env`
and `KillEnv` below. -/

inductive Platform where
  | darwin | linux | win32 | wsl | other
deriving DecidableEq, Repr

/-- `_SUPPORTED_PLATFORMS = new Set(["darwin", "linux", "win32", "wsl"])`. -/
def supportedPlatforms : List Platform := [.darwin, .linux, .win32, .wsl]

/-- A `ChildProcess` handle; its `pid` property may be `undefined`. -/
structure ChildProc where
  pid : Option Nat
deriving DecidableEq, Repr

/-- The `userDataDir` option: a path, or `false` for the browser's own
default profile (`true` is rejected at construction). -/
inductive UserDataDirOpt where
  | flag (b : Bool)
  | path (p : String)
deriving DecidableEq, Repr

/-- The `Options` bag; `none` plays the role of an omitted / `undefined`
option. -/
structure Options where
  startingUrl : Option String := none
  chromeFlags : Option (List String) := none
  prefs : Option (List (String × JSONLike)) := none
  port : Option Nat := none
  portStrictMode : Option Bool := none
  chromePath : Option String := none
  userDataDir : Option UserDataDirOpt := none
  ignoreDefaultFlags : Option Bool := none
  connectionPollInterval : Option Nat := none
  maxConnectionRetries : Option Nat := none

/-- `utils.defaults(val, def)`: the value unless it is `undefined`. -/
def defaults {α : Type} (val : Option α) (d : α) : α := val.getD d

/-- The mutable fields of a `Launcher` that the modelled operations read
or write.  `optsUserDataDir` retains the raw `opts.userDataDir` value,
which `destroyTmp` consults. -/
structure Launcher where
  startingUrl : String := "about:blank"
  chromeFlags : List String := []
  prefs : List (String × JSONLike) := []
  requestedPort : Nat := 0
  portStrictMode : Bool := false
  ignoreDefaultFlags : Bool := false
  connectionPollInterval : Nat := 500
  maxConnectionRetries : Nat := 50
  useDefaultProfile : Bool := false
  userDataDir : Option String := none
  optsUserDataDir : Option UserDataDirOpt := none
  chromePath : Option String := none
  tmpDirandPidFileReady : Bool := false
  outFile : Bool := false
  errFile : Bool := false
  chromeProcess : Option ChildProc := none
  port : Option Nat := none
  pid : Option Nat := none

/-- The `Launcher` constructor: apply option defaults and validate the
`userDataDir` option (`true` throws `InvalidUserDataDirectoryError`). -/
def mkLauncher (opts : Options) : Except String Launcher :=
  let base : Launcher :=
    { startingUrl := defaults opts.startingUrl "about:blank"
      chromeFlags := defaults opts.chromeFlags []
      prefs := defaults opts.prefs []
      requestedPort := defaults opts.port 0
      portStrictMode := defaults opts.portStrictMode false
      chromePath := opts.chromePath
      ignoreDefaultFlags := defaults opts.ignoreDefaultFlags false
      connectionPollInterval := defaults opts.connectionPollInterval 500
      maxConnectionRetries := defaults opts.maxConnectionRetries 50
      optsUserDataDir := opts.userDataDir }
  match opts.userDataDir with
  | some (.flag true) => .error "InvalidUserDataDirectoryError"
  | some (.flag false) => .ok { base with useDefaultProfile := true, userDataDir := none }
  | some (.path p) => .ok { base with useDefaultProfile := false, userDataDir := some p }
  | none => .ok { base with useDefaultProfile := false, userDataDir := none }

/-! ## Flag building (`Launcher.flags`, part_000 lines 196-219, and
`DEFAULT_FLAGS`, src/flags.js lines 13-76) -/

/-- The features joined into the `--disable-features=` flag. -/
def disabledFeatures : List String :=
  ["Translate", "OptimizationHints", "MediaRouter", "DialMediaRouteProvider",
   "CalculateNativeWinOcclusion", "InterestFeedContentSuggestions",
   "CertificateTransparencyComponentUpdater", "AutofillServerCommunication"]

def DEFAULT_FLAGS : List String :=
  ("--disable-features=" ++ String.intercalate "," disabledFeatures) ::
  ["--disable-extensions",
   "--disable-component-extensions-with-background-pages",
   "--disable-background-networking",
   "--disable-component-update",
   "--disable-client-side-phishing-detection",
   "--disable-sync",
   "--metrics-recording-only",
   "--disable-default-apps",
   "--mute-audio",
   "--no-default-browser-check",
   "--no-first-run",
   "--disable-backgrounding-occluded-windows",
   "--disable-renderer-backgrounding",
   "--disable-background-timer-throttling",
   "--disable-ipc-flooding-protection",
   "--password-store=basic",
   "--use-mock-keychain",
   "--force-fieldtrials=*BackgroundTracing/default/",
   "--disable-hang-monitor",
   "--disable-prompt-on-repost",
   "--disable-domain-reliability"]

/-- JavaScript template interpolation of a possibly-undefined string. -/
def interpStr : Option String → String
  | some s => s
  | none => "undefined"

/-- JavaScript template interpolation of a possibly-undefined number. -/
def interpNat : Option Nat → String
  | some n => toString n
  | none => "undefined"

/-- The `flags` getter.  `platform` is `getPlatform()` (so `isWsl` is
`platform = .wsl`), `headlessEnv` is the truthiness of
`process.env.HEADLESS`, and `toWin32Path` is the `./utils` path
translation applied to `this.userDataDir` under WSL. -/
def Launcher.flags (platform : Platform) (headlessEnv : Bool)
    (toWin32Path : Option String → String) (s : Launcher) : List String :=
  let flags := if s.ignoreDefaultFlags then [] else DEFAULT_FLAGS
  let flags := flags ++ ["--remote-debugging-port=" ++ interpNat s.port]
  let flags := flags ++
    (if ¬s.ignoreDefaultFlags ∧ platform = .linux then ["--disable-setuid-sandbox"] else [])
  let flags := flags ++
    (if ¬s.useDefaultProfile then
       ["--user-data-dir=" ++
         (if platform = .wsl then toWin32Path s.userDataDir else interpStr s.userDataDir)]
     else [])
  let flags := flags ++ (if headlessEnv then ["--headless"] else [])
  let flags := flags ++ s.chromeFlags
  flags ++ [s.startingUrl]

/-- C7: the built flag list is exactly the concatenation, in order, of:
the default flags (empty when `ignoreDefaultFlags`), the
`--remote-debugging-port` flag, the Linux sandbox-disabling flag when
defaults are not ignored, the `--user-data-dir` flag unless the default
profile is used (Win32-translated under WSL), `--headless` when the
HEADLESS environment toggle is set, the caller-supplied flags verbatim,
and the starting URL last. -/
theorem flags_composition (platform : Platform) (headlessEnv : Bool)
    (toWin32Path : Option String → String) (s : Launcher) :
    s.flags platform headlessEnv toWin32Path =
      (if s.ignoreDefaultFlags then [] else DEFAULT_FLAGS) ++
      ["--remote-debugging-port=" ++ interpNat s.port] ++
      (if ¬s.ignoreDefaultFlags ∧ platform = .linux
         then ["--disable-setuid-sandbox"] else []) ++
      (if ¬s.useDefaultProfile then
         ["--user-data-dir=" ++
           (if platform = .wsl then toWin32Path s.userDataDir else interpStr s.userDataDir)]
       else []) ++
      (if headlessEnv then ["--headless"] else []) ++
      s.chromeFlags ++
      [s.startingUrl] := by
  simp [Launcher.flags, List.append_assoc]

/-! ## launch / prepare / spawnProcess (part_000 lines 241-260, 297-386)

`Env` bundles the outcomes of the external collaborators for one launch:
the initial `isDebuggerReady()` probe at the requested port, the platform,
the installation resolver, `makeTmpDir()`, `getRandomPort()`, the handle
returned by `spawn`, and the outcome of `waitUntilReady()` after the
spawn. -/

structure Env where
  platform : Platform := .linux
  debuggerReady : Bool := false
  installation : Option String := none
  tmpDir : String := "/tmp/lighthouse.XXXXXXX"
  randomPort : Nat := 0
  spawnResult : Option ChildProc := none
  waitReady : Bool := true

inductive LaunchError where
  | invalidUserDataDirectory
  | unsupportedPlatform
  | strictPort (port : Nat)
  | chromeNotInstalled
  | processNotCreated
  | readinessTimeout
deriving DecidableEq, Repr

/-- The message of each launch error.  Only `strictPort` and
`processNotCreated` messages are built in this file's source; the others
come from error classes in `./utils`, named here by class. -/
def LaunchError.message : LaunchError → String
  | .invalidUserDataDirectory => "InvalidUserDataDirectoryError"
  | .unsupportedPlatform => "UnsupportedPlatformError"
  | .strictPort port => "found no Chrome at port " ++ toString port
  | .chromeNotInstalled => "ChromeNotInstalledError"
  | .processNotCreated => "Chrome process not created"
  | .readinessTimeout => "readiness polling retry budget exhausted"

/-- Counts of collaborator calls made during one `launch()`:
the initial port probe, `getFirstInstallation()`, `prepare()`, and
`this.spawn(...)`. -/
structure Effects where
  probes : Nat := 0
  installResolveCalls : Nat := 0
  prepareCalls : Nat := 0
  spawnCalls : Nat := 0
deriving DecidableEq, Repr

/-- The settled `launch()` promise: `error = none` means it resolved.
The launcher and filesystem states reflect all mutations made before a
rejection (a JS `throw` keeps the mutations to `this`). -/
structure LaunchResult where
  error : Option LaunchError
  launcher : Launcher
  fs : Fs
  eff : Effects

/-- `Launcher.prepare()`: reject on an unsupported platform, pick
`userDataDir || makeTmpDir()`, open the two append-mode log handles, run
`setBrowserPrefs`, and mark the instance prepared. -/
def prepare (env : Env) (s : Launcher) (fs : Fs) : Except LaunchError (Launcher × Fs) :=
  if ¬ supportedPlatforms.contains env.platform then
    .error .unsupportedPlatform
  else
    let dir := s.userDataDir.getD env.tmpDir
    let s := { s with userDataDir := some dir, outFile := true, errFile := true }
    let fs := setBrowserPrefs s.prefs dir fs
    .ok ({ s with tmpDirandPidFileReady := true }, fs)

/-- `Launcher.spawnProcess(execPath)`: return the existing process id when
a process is already attached (no spawn); otherwise allocate a random port
when the requested port is 0, spawn, and fail if no process handle was
created.  In both cases `waitUntilReady()` then runs (its outcome is
`env.waitReady`).  Returns (error?, updated launcher, number of spawn
calls, the pid the inner spawn promise returned). -/
def spawnProcess (env : Env) (s : Launcher) :
    Option LaunchError × Launcher × Nat × Option Nat :=
  match s.chromeProcess with
  | some proc =>
      if env.waitReady then (none, s, 0, proc.pid)
      else (some .readinessTimeout, s, 0, proc.pid)
  | none =>
      let s := if s.requestedPort = 0 then { s with port := some env.randomPort } else s
      match env.spawnResult with
      | none => (some .processNotCreated, s, 1, none)
      | some proc =>
          let s := { s with chromeProcess := some proc }
          if env.waitReady then (none, s, 1, proc.pid)
          else (some .readinessTimeout, s, 1, proc.pid)

/-- The tail of `launch()` after the port pre-probe and installation
resolution: run `prepare()` once, then `this.pid = await spawnProcess`. -/
def launchSpawnStep (env : Env) (s : Launcher) (fs : Fs) (eff : Effects) : LaunchResult :=
  let run (s : Launcher) (fs : Fs) (eff : Effects) : LaunchResult :=
    let r := spawnProcess env s
    let eff := { eff with spawnCalls := eff.spawnCalls + r.2.2.1 }
    match r.1 with
    | some e => { error := some e, launcher := r.2.1, fs := fs, eff := eff }
    | none =>
        { error := none, launcher := { r.2.1 with pid := r.2.2.2 }, fs := fs, eff := eff }
  if s.tmpDirandPidFileReady then run s fs eff
  else
    let eff := { eff with prepareCalls := eff.prepareCalls + 1 }
    match prepare env s fs with
    | .error e => { error := some e, launcher := s, fs := fs, eff := eff }
    | .ok (s', fs') => run s' fs' eff

/-- The middle of `launch()`: resolve an installation when no
`chromePath` was configured, failing with `ChromeNotInstalledError` when
the resolver returns none. -/
def launchResolveStep (env : Env) (s : Launcher) (fs : Fs) (eff : Effects) : LaunchResult :=
  match s.chromePath with
  | none =>
      let eff := { eff with installResolveCalls := eff.installResolveCalls + 1 }
      match env.installation with
      | none => { error := some .chromeNotInstalled, launcher := s, fs := fs, eff := eff }
      | some inst => launchSpawnStep env { s with chromePath := some inst } fs eff
  | some _ => launchSpawnStep env s fs eff

/-- `Launcher.launch()` (part_000 lines 297-335): when a non-zero port was
requested, set `this.port` to it and probe it first; on probe success
return at once; on failure reject in strict-port mode, else fall through
to resolve / prepare / spawn. -/
def launch (env : Env) (s : Launcher) (fs : Fs) : LaunchResult :=
  if s.requestedPort ≠ 0 then
    let s := { s with port := some s.requestedPort }
    if env.debuggerReady then
      { error := none, launcher := s, fs := fs, eff := { probes := 1 } }
    else if s.portStrictMode then
      { error := some (.strictPort s.requestedPort), launcher := s, fs := fs,
        eff := { probes := 1 } }
    else launchResolveStep env s fs { probes := 1 }
  else launchResolveStep env s fs {}

/-- The handle the module-level `launch()` returns.  Its TypeScript type
promises `pid : number` and `process : ChildProcess`, but the values are
copied from the instance with non-null assertions, so they are `none`
whenever the instance never assigned them. -/
structure LaunchedChrome where
  pid : Option Nat
  port : Option Nat
  process : Option ChildProc
deriving DecidableEq, Repr

inductive ModuleLaunchResult where
  | constructError (msg : String)
  | launchError (e : LaunchError)
  | ok (handle : LaunchedChrome)

/-- The module-level `launch(opts)` (part_000 lines 80-107): construct a
`Launcher`, register it, await `instance.launch()`, and return the
`{pid, port, kill, process}` handle built from the instance's fields. -/
def moduleLaunch (env : Env) (opts : Options) (fs : Fs) : ModuleLaunchResult :=
  match mkLauncher opts with
  | .error msg => .constructError msg
  | .ok inst =>
      let r := launch env inst fs
      match r.error with
      | some e => .launchError e
      | none =>
          .ok { pid := r.launcher.pid, port := r.launcher.port,
                process := r.launcher.chromeProcess }

/-- C5: with a non-zero requested port whose initial probe succeeds,
`launch()` sets the instance's port to the requested port and resolves
after exactly that one probe — no installation resolution, no profile
preparation, no spawn, and no filesystem change. -/
theorem launch_probe_success (env : Env) (s : Launcher) (fs : Fs)
    (hnz : s.requestedPort ≠ 0) (hready : env.debuggerReady = true) :
    (launch env s fs).error = none ∧
    (launch env s fs).launcher.port = some s.requestedPort ∧
    (launch env s fs).eff = { probes := 1 } ∧
    (launch env s fs).fs = fs := by
  simp [launch, hnz, hready]

/-- C5 witness. -/
theorem launch_probe_success_witness :
    (launch { debuggerReady := true } { requestedPort := 9222 } {}).error = none ∧
    (launch { debuggerReady := true } { requestedPort := 9222 } {}).launcher.port = some 9222 ∧
    (launch { debuggerReady := true } { requestedPort := 9222 } {}).eff = { probes := 1 } ∧
    (launch { debuggerReady := true } { requestedPort := 9222 } {}).fs = {} :=
  launch_probe_success { debuggerReady := true } { requestedPort := 9222 } {}
    (by decide) rfl

/-- C4: with a non-zero requested port, strict-port mode on, and the
initial probe failing, `launch()` rejects with the error whose message
names the exact requested port, and no spawn is attempted. -/
theorem launch_strict_port (env : Env) (s : Launcher) (fs : Fs)
    (hnz : s.requestedPort ≠ 0) (hstrict : s.portStrictMode = true)
    (hready : env.debuggerReady = false) :
    (launch env s fs).error = some (.strictPort s.requestedPort) ∧
    ((launch env s fs).error.map LaunchError.message) =
      some ("found no Chrome at port " ++ toString s.requestedPort) ∧
    (launch env s fs).eff.spawnCalls = 0 := by
  simp [launch, hnz, hstrict, hready, LaunchError.message]

/-- C4 witness. -/
theorem launch_strict_port_witness :
    (launch {} { requestedPort := 9222, portStrictMode := true } {}).error =
      some (.strictPort 9222) ∧
    ((launch {} { requestedPort := 9222, portStrictMode := true } {}).error.map
        LaunchError.message) = some ("found no Chrome at port " ++ toString 9222) ∧
    (launch {} { requestedPort := 9222, portStrictMode := true } {}).eff.spawnCalls = 0 :=
  launch_strict_port {} { requestedPort := 9222, portStrictMode := true } {}
    (by decide) rfl rfl

/-- C3: a second `launch()` on an instance whose process is still attached
resolves with the same process id and performs no second spawn; the
attached process is unchanged.  (An attached process implies the first
launch spawned, so the instance is prepared, has a resolved executable
path, and — since strict-port mode with a fixed port never spawns — is not
in that configuration.) -/
theorem launch_already_running (env : Env) (s : Launcher) (fs : Fs) (proc : ChildProc)
    (hproc : s.chromeProcess = some proc) (hpid : s.pid = proc.pid)
    (hcp : s.chromePath.isSome) (hprep : s.tmpDirandPidFileReady = true)
    (hns : ¬(s.portStrictMode = true ∧ s.requestedPort ≠ 0))
    (hw : env.waitReady = true) :
    (launch env s fs).error = none ∧
    (launch env s fs).launcher.pid = s.pid ∧
    (launch env s fs).eff.spawnCalls = 0 ∧
    (launch env s fs).launcher.chromeProcess = some proc := by
  obtain ⟨cp, hcp⟩ := Option.isSome_iff_exists.mp hcp
  by_cases hz : s.requestedPort = 0
  · simp [launch, hz, launchResolveStep, hcp, launchSpawnStep, hprep,
      spawnProcess, hproc, hw, hpid]
  · by_cases hready : env.debuggerReady = true
    · simp [launch, hz, hready, hpid, hproc]
    · have hstrict : s.portStrictMode = false := by
        rcases Bool.eq_false_or_eq_true s.portStrictMode with h | h
        · exact absurd ⟨h, hz⟩ hns
        · exact h
      have hready' : env.debuggerReady = false := by simpa using hready
      simp [launch, hz, hready', hstrict, launchResolveStep, hcp,
        launchSpawnStep, hprep, spawnProcess, hproc, hw, hpid]

/-- An instance as left by a first successful launch: attached process
with pid 123, prepared profile, resolved executable path. -/
def runningInstance : Launcher :=
  { chromeProcess := some ⟨some 123⟩, pid := some 123,
    chromePath := some "/usr/bin/google-chrome", tmpDirandPidFileReady := true }

/-- C3 witness. -/
theorem launch_already_running_witness :
    (launch {} runningInstance {}).error = none ∧
    (launch {} runningInstance {}).launcher.pid = runningInstance.pid ∧
    (launch {} runningInstance {}).eff.spawnCalls = 0 ∧
    (launch {} runningInstance {}).launcher.chromeProcess = some ⟨some 123⟩ :=
  launch_already_running {} runningInstance {} ⟨some 123⟩
    rfl rfl rfl rfl (by decide) rfl

/-- C10: when a non-zero requested port's initial probe succeeds, the
instance's pid and process are never assigned, so the handle returned by
the module-level `launch()` carries `none` for both (despite the declared
TypeScript type) and only the port field is populated. -/
theorem moduleLaunch_attach_handle (env : Env) (opts : Options) (fs : Fs) (p : Nat)
    (hp : opts.port = some p) (hnz : p ≠ 0) (hready : env.debuggerReady = true)
    (hud : opts.userDataDir ≠ some (.flag true)) :
    moduleLaunch env opts fs =
      .ok { pid := none, port := some p, process := none } := by
  have hport : opts.port.getD 0 = p := by rw [hp]; rfl
  match hud' : opts.userDataDir with
  | none =>
    simp [moduleLaunch, mkLauncher, hud', launch, defaults, hport, hnz, hready]
  | some (.flag false) =>
    simp [moduleLaunch, mkLauncher, hud', launch, defaults, hport, hnz, hready]
  | some (.flag true) => exact absurd hud' hud
  | some (.path q) =>
    simp [moduleLaunch, mkLauncher, hud', launch, defaults, hport, hnz, hready]

/-- C10 witness. -/
theorem moduleLaunch_attach_handle_witness :
    moduleLaunch { debuggerReady := true } { port := some 9222 } {} =
      .ok { pid := none, port := some 9222, process := none } :=
  moduleLaunch_attach_handle { debuggerReady := true } { port := some 9222 } {} 9222
    rfl (by decide) rfl (by simp)

/-! ## Cleanup (`Launcher.destroyTmp`, part_000 lines 499-520) and kill
(`Launcher.kill`, part_000 lines 454-497)

`FsFailures` says which of the underlying filesystem operations fail;
`destroyTmp` is written in the `Except` monad so that each catch site in
the source is visible as a `catchLog`, and "cleanup never throws" is the
statement that the result is `.ok` for every failure pattern. -/

structure FsFailures where
  outClose : Bool := false
  errClose : Bool := false
  rm : Bool := false
deriving DecidableEq, Repr

/-- What `destroyTmp` did: which handles it closed and whether it invoked
the recursive `fs.rm` (with `recursive: true, force: true,
maxRetries: 30`) and on which directory. -/
structure DestroyEffects where
  outCloseCalled : Bool := false
  errCloseCalled : Bool := false
  rmCalled : Bool := false
  rmTarget : Option String := none
  rmRecursive : Bool := false
deriving DecidableEq, Repr

/-- A `FileHandle.close()` call that may fail. -/
def closeHandle (fails : Bool) : Except String Unit :=
  if fails then .error "EBADF: file handle close failed" else .ok ()

/-- An `fs.rm(dir, {recursive, force, maxRetries})` call that may fail
even after its 30 internal retries. -/
def fsRm (fails : Bool) : Except String Unit :=
  if fails then .error "EBUSY: directory removal failed" else .ok ()

/-- `.catch(err => console.error(...))` / `try ... catch { log }`:
a failure is logged and swallowed. -/
def catchLog (e : Except String Unit) : Except String Unit :=
  match e with
  | .error _ => .ok ()
  | .ok u => .ok u

/-- `Launcher.destroyTmp()`: close the stdout handle (errors swallowed);
return unless the instance owns its profile directory (it was not given
one through `opts.userDataDir`); close the stderr handle and recursively
force-remove the directory, both with errors swallowed. -/
def destroyTmp (f : FsFailures) (s : Launcher) : Except String DestroyEffects :=
  match catchLog (if s.outFile then closeHandle f.outClose else .ok ()) with
  | .error e => .error e
  | .ok _ =>
    let eff : DestroyEffects := { outCloseCalled := s.outFile }
    if s.userDataDir = none ∨ s.optsUserDataDir ≠ none then .ok eff
    else
      match catchLog (if s.errFile then closeHandle f.errClose else .ok ()) with
      | .error e => .error e
      | .ok _ =>
        match catchLog (fsRm f.rm) with
        | .error e => .error e
        | .ok _ =>
            .ok { eff with errCloseCalled := s.errFile, rmCalled := true,
                           rmTarget := s.userDataDir, rmRecursive := true }

theorem catchLog_eq_ok (e : Except String Unit) : catchLog e = .ok () := by
  cases e with
  | error err => rfl
  | ok u => cases u; rfl

/-- C6: cleanup never throws (every close/removal failure is swallowed);
an instance whose `userDataDir` was supplied by the caller never has that
directory removed; an instance whose profile directory was auto-generated
has it recursively removed. -/
theorem destroyTmp_spec (f : FsFailures) (s : Launcher) :
    (destroyTmp f s).isOk = true ∧
    (∀ p, s.optsUserDataDir = some (.path p) →
        destroyTmp f s = .ok { outCloseCalled := s.outFile }) ∧
    (∀ d, s.optsUserDataDir = none → s.userDataDir = some d →
        destroyTmp f s =
          .ok { outCloseCalled := s.outFile, errCloseCalled := s.errFile,
                rmCalled := true, rmTarget := some d, rmRecursive := true }) := by
  refine ⟨?_, ?_, ?_⟩
  · simp only [destroyTmp, catchLog_eq_ok]
    by_cases h : s.userDataDir = none ∨ s.optsUserDataDir ≠ none <;>
      simp [h, Except.isOk, Except.toBool]
  · intro p hp
    simp [destroyTmp, catchLog_eq_ok, hp]
  · intro d hopts hdir
    simp [destroyTmp, catchLog_eq_ok, hopts, hdir]

/-- C6 witness: an owner instance with every filesystem operation failing
still returns cleanly and removed its directory; a caller-supplied
directory is untouched. -/
theorem destroyTmp_spec_witness :
    (destroyTmp { outClose := true, errClose := true, rm := true }
        { userDataDir := some "/tmp/l.x", outFile := true, errFile := true }).isOk = true ∧
    destroyTmp {} { userDataDir := some "/custom", optsUserDataDir := some (.path "/custom") } =
      .ok { outCloseCalled := false } ∧
    destroyTmp {} { userDataDir := some "/tmp/l.x", outFile := true, errFile := true } =
      .ok { outCloseCalled := true, errCloseCalled := true, rmCalled := true,
            rmTarget := some "/tmp/l.x", rmRecursive := true } :=
  ⟨(destroyTmp_spec { outClose := true, errClose := true, rm := true }
      { userDataDir := some "/tmp/l.x", outFile := true, errFile := true }).1,
   (destroyTmp_spec {}
      { userDataDir := some "/custom", optsUserDataDir := some (.path "/custom") }).2.1
      "/custom" rfl,
   (destroyTmp_spec {}
      { userDataDir := some "/tmp/l.x", outFile := true, errFile := true }).2.2
      "/tmp/l.x" rfl rfl⟩

/-! ## kill (part_000 lines 454-497)

`processExits` says whether the OS delivers the child's `close` event
after the termination attempt (the continuation that deletes
`this.chromeProcess` and runs `destroyTmp` again).  Exceptions from the
termination signal are caught and logged, so `kill` always resolves —
it is a total function. -/

structure KillEnv where
  isWindows : Bool := false
  processExits : Bool := true

structure KillEffects where
  terminationAttempted : Bool := false
  destroyTmpCalls : Nat := 0
deriving DecidableEq, Repr

/-- `Launcher.kill()`: resolve immediately when no process is attached;
otherwise register the `close` continuation, attempt platform-appropriate
termination (exceptions caught), run `destroyTmp`, and resolve.  When the
`close` event fires, the continuation clears `chromeProcess` and runs
`destroyTmp` a second time. -/
def kill (env : KillEnv) (s : Launcher) : Launcher × KillEffects :=
  match s.chromeProcess with
  | none => (s, {})
  | some _proc =>
      if env.processExits then
        ({ s with chromeProcess := none },
         { terminationAttempted := true, destroyTmpCalls := 2 })
      else
        (s, { terminationAttempted := true, destroyTmpCalls := 1 })

/-- C9: `kill()` with no attached process resolves immediately as a no-op
(state untouched, no termination attempt, no cleanup); after a completed
kill whose process exited, a second `kill()` is exactly that no-op — it
re-attempts nothing. -/
theorem kill_twice_spec (env env' : KillEnv) (s : Launcher) :
    (s.chromeProcess = none → kill env s = (s, {})) ∧
    (env.processExits = true →
        kill env' (kill env s).1 = ((kill env s).1, {})) := by
  constructor
  · intro h
    simp [kill, h]
  · intro hex
    match hcp : s.chromeProcess with
    | none => simp [kill, hcp]
    | some proc => simp [kill, hcp, hex]

/-- C9 witness: killing an instance with an attached process and then
killing it again — the second call is an effect-free no-op. -/
theorem kill_twice_spec_witness :
    kill {} { } = ({ }, { }) ∧
    kill {} (kill {} runningInstance).1 = ((kill {} runningInstance).1, {}) :=
  ⟨(kill_twice_spec {} {} {}).1 rfl, (kill_twice_spec {} {} runningInstance).2 rfl⟩

end ChromeLauncher
